import Mathlib

/-!
Shallow embedding of `app.py` from the job-posting-mvp repository: a Streamlit
application that fetches plain-text knowledge files from a GitHub repository,
chunks and indexes them for similarity search, and generates a job posting from
a user-filled form plus the retrieved snippets.

The repository's own code is the control flow of `app.py`; the chunker
(`RecursiveCharacterTextSplitter`), the vector index (`Chroma`) and the
memoization decorator (`st.cache_resource`) live in external packages, so those
parts are modelled from the specification, as marked on each definition.
-/

/-- A fetched knowledge file, as built at app.py line 49: the downloaded text
as `page_content` together with the file name kept as `source` metadata.
Content is modelled at character granularity. -/
structure Document where
  content : List Char
  source_id : String
deriving DecidableEq

/-- One window of text produced by the splitter, tagged with the parent
document's `source_id` and the character offset of the window start. -/
structure Chunk where
  content : List Char
  source_id : String
  offset : Nat
deriving DecidableEq

/-- Modelled from the spec: the window start offsets of the chunker.
`RecursiveCharacterTextSplitter(chunk_size=1000, chunk_overlap=100)`
(app.py line 59) is external library code, not part of this repository.
Spec 4.2: slide a window of length `size` across content of length `len`,
advancing by `step = size - overlap` characters each step; the last window may
be shorter than `size`.  `fuel` bounds the recursion; whenever `1 ≤ step`,
`fuel = len` is enough fuel, and the fuel-exhausted branch coincides with the
final-window branch. -/
def chunkOffsetsAux (size step len : Nat) : Nat → Nat → List Nat
  | 0, pos => [pos]
  | fuel + 1, pos =>
    if pos + size < len then pos :: chunkOffsetsAux size step len fuel (pos + step)
    else [pos]

/-- Modelled from the spec: all window start offsets for a document of length
`len`, starting from offset 0. -/
def chunkOffsets (size step len : Nat) : List Nat :=
  chunkOffsetsAux size step len len 0

/-- Modelled from the spec: split one Document into overlapping chunks
(spec 4.2); an empty document yields no chunks. -/
def splitDocument (size overlap : Nat) (d : Document) : List Chunk :=
  if d.content.length = 0 then []
  else
    (chunkOffsets size (size - overlap) d.content.length).map
      (fun pos => ⟨(d.content.drop pos).take size, d.source_id, pos⟩)

/-- The splitter applied to every fetched document in order
(`text_splitter.split_documents(all_documents)`, app.py line 60). -/
def split_documents (size overlap : Nat) (docs : List Document) : List Chunk :=
  docs.flatMap (splitDocument size overlap)

/-- One stored entry of the vector store: the embedding vector paired with the
chunk it came from (spec 3: IndexEntry). Vector components are modelled as
integers since the similarity metric is kept abstract. -/
structure IndexEntry where
  embedding : List Int
  chunk : Chunk
deriving DecidableEq

/-- Modelled from the spec: insertion of a scored entry into a list that is
already ranked score-descending; ties keep the earlier entry first (stable
order, spec 3 Query). `Chroma` is external library code. -/
def insertByScore (x : Int × IndexEntry) :
    List (Int × IndexEntry) → List (Int × IndexEntry)
  | [] => [x]
  | y :: ys => if y.1 < x.1 then x :: y :: ys else y :: insertByScore x ys

/-- Modelled from the spec: rank scored entries relevance-descending. -/
def rankByScore : List (Int × IndexEntry) → List (Int × IndexEntry)
  | [] => []
  | x :: xs => insertByScore x (rankByScore xs)

/-- Score every stored entry against a query vector with the index's
similarity metric (spec 4.4: one metric ranks all entries). -/
def scoreEntries (score : List Int → List Int → Int) (qv : List Int)
    (entries : List IndexEntry) : List (Int × IndexEntry) :=
  entries.map (fun e => (score qv e.embedding, e))

/-- Modelled from the spec: nearest-neighbor query of the similarity index —
score all entries, rank them relevance-descending, keep the first `k`, return
their chunks (spec 4.4). -/
def queryIndex (score : List Int → List Int → Int) (entries : List IndexEntry)
    (qv : List Int) (k : Nat) : List Chunk :=
  ((rankByScore (scoreEntries score qv entries)).take k).map (fun p => p.2.chunk)

/-- The retriever handle returned by a successful setup:
`vectorstore.as_retriever(search_kwargs=...)` with k = 5 (app.py line 70). -/
structure Retriever where
  k : Nat
  entries : List IndexEntry
deriving DecidableEq

/-- Modelled from the spec: query-time retrieval (spec 4.5) — embed the query
text with the same embedding function used at build time, then delegate to the
index query with the handle's configured k. -/
def retrieve (embedFn : List Char → List Int) (score : List Int → List Int → Int)
    (r : Retriever) (q : String) : List Chunk :=
  queryIndex score r.entries (embedFn q.data) r.k

/-- Observable effects of one run of the application, in order: network calls
to the listing API and raw-file downloads (app.py lines 30 and 43), the local
pipeline stages, the retrieval and generation calls made by
`rag_chain.invoke` (app.py line 187), and the messages shown on screen via
`st.error`, `st.warning` and `st.success`. -/
inductive Event where
  | fetchList
  | fetchFile (name : String)
  | chunkDocs
  | embedCall
  | indexBuild
  | retrieveCall
  | generateCall (input : String)
  | reportError (msg : String)
  | reportWarning (msg : String)
  | reportSuccess
deriving DecidableEq

/-- Events that reach the network: the listing call, file downloads, the
embedding calls (both at build time and at query time inside retrieval) and
the hosted-model generation call. -/
def Event.isNetwork : Event → Bool
  | fetchList => true
  | fetchFile _ => true
  | embedCall => true
  | retrieveCall => true
  | generateCall _ => true
  | _ => false

/-- The ambient world of one run: which secret keys are configured, whether
the GitHub listing call succeeds, the listing entries as (file name, raw text)
pairs, the textual detail of a failed listing call, and the hosted embedding
model as an abstract function. -/
structure Env where
  secrets : List String
  listingOk : Bool
  files : List (String × String)
  fetchErrDetail : String
  embedFn : List Char → List Int

/-- Message shown when the API key is missing (app.py line 147). -/
def missingKeyMsg : String :=
  "Gemini APIキーが設定されていません。Streamlit CloudのSecretsに \x27GEMINI_API_KEY\x27 を設定してください。"

/-- Message shown when no .txt file is found (app.py line 53). -/
def emptyKbMsg : String :=
  "GitHubリポジトリに .txt 形式のノウハウファイルが見つかりません。"

/-- Head of the message shown when setup raises (app.py line 73); the tail is
the textual rendering of the exception. -/
def setupErrHead : String := "RAGのセットアップ中にエラーが発生しました: "

/-- Warning shown when the required job title is empty (app.py line 173). -/
def titleRequiredMsg : String := "「募集職種」は必須入力です。"

/-- The filter at app.py line 38: `file[\x27name\x27].endswith(\x27.txt\x27)`,
modelled as a suffix check over the name's characters. -/
def endswithTxt (name : String) : Bool :=
  ".txt".data.isSuffixOf name.data

/-- The `setup_rag` function (app.py lines 17-74): list the repository
contents, download every .txt file into a Document, report an error and
return None if there is none, otherwise chunk, embed, build the vector store,
and return a retriever with k = 5.  A failed listing call
(`response.raise_for_status()`, line 31) lands in the except branch, which
reports the error and returns None.  The result is paired with the trace of
observable events. -/
def setup_rag (env : Env) : Option Retriever × List Event :=
  if env.listingOk = false then
    (none, [Event.fetchList, Event.reportError (setupErrHead ++ env.fetchErrDetail)])
  else
    let txt := env.files.filter (fun f => endswithTxt f.1)
    let fetchEvents := txt.map (fun f => Event.fetchFile f.1)
    let docs := txt.map (fun f => Document.mk f.2.data f.1)
    if docs.isEmpty then
      (none, Event.fetchList :: fetchEvents ++ [Event.reportError emptyKbMsg])
    else
      let splits := split_documents 1000 100 docs
      let entries := splits.map (fun c => IndexEntry.mk (env.embedFn c.content) c)
      (some ⟨5, entries⟩,
        Event.fetchList :: fetchEvents ++ [Event.chunkDocs, Event.embedCall, Event.indexBuild])

/-- The chain built by `setup_chain` (app.py lines 78-139): the prompt, LLM
client and retrieval chain are constructed locally around the retriever; no
network call is made during construction. -/
structure Chain where
  retriever : Option Retriever

/-- The `setup_chain` function (app.py lines 78-139): wires the retriever
into the retrieval chain; construction is local, so it emits no events. -/
def setup_chain (r : Option Retriever) : Option Chain × List Event :=
  (some ⟨r⟩, [])

/-- The global state left by the module body: the memoized retriever and the
chain, both absent when their setup failed. -/
structure AppState where
  retriever : Option Retriever
  chain : Option Chain

/-- The module body up to the form (app.py lines 146-156): if the API key is
absent from the secrets, report exactly one error and stop; otherwise run
`setup_rag` and `setup_chain` and, when both succeeded, show the success
message. -/
def appMain (env : Env) : AppState × List Event :=
  if "GEMINI_API_KEY" ∈ env.secrets then
    let rs := setup_rag env
    let cs := setup_chain rs.1
    match rs.1, cs.1 with
    | some r, some c => (⟨some r, some c⟩, rs.2 ++ cs.2 ++ [Event.reportSuccess])
    | r, c => (⟨r, c⟩, rs.2 ++ cs.2)
  else
    (⟨none, none⟩, [Event.reportError missingKeyMsg])

/-- The submitted form fields (app.py lines 162-165). -/
structure JobForm where
  job_title : String
  target_audience : String
  required_skills : String
  welcome_skills : String
deriving DecidableEq

/-- The 28 spaces of indentation inside the `user_input` f-string literal
(app.py lines 178-183). -/
def inputIndent : String := "                            "

/-- The `user_input` f-string (app.py lines 178-183): the four form fields
substituted into the fixed template, byte for byte. -/
def assembleUserInput (f : JobForm) : String :=
  "\n" ++ inputIndent ++ "募集職種: " ++ f.job_title ++
  "\n" ++ inputIndent ++ "ターゲット層: " ++ f.target_audience ++
  "\n" ++ inputIndent ++ "必須スキル: " ++ f.required_skills ++
  "\n" ++ inputIndent ++ "歓迎スキル: " ++ f.welcome_skills ++
  "\n" ++ inputIndent

/-- The submission handler (app.py lines 171-191): the form only exists when
both the retriever and the chain are present (line 155); an empty job title
is rejected with a warning before anything runs (lines 172-173); otherwise
`rag_chain.invoke` performs retrieval followed by generation on the assembled
input.  The state is returned unchanged — the handler never reassigns the
retriever or the chain. -/
def handleSubmit (st : AppState) (f : JobForm) : AppState × List Event :=
  match st.retriever, st.chain with
  | some _, some _ =>
    if f.job_title = "" then
      (st, [Event.reportWarning titleRequiredMsg])
    else
      (st, [Event.retrieveCall, Event.generateCall (assembleUserInput f)])
  | _, _ => (st, [])

/-- One whole run of the script: the module body, then at most one form
submission. -/
def runApp (env : Env) (submission : Option JobForm) : AppState × List Event :=
  let ms := appMain env
  match submission with
  | none => ms
  | some f =>
    let hs := handleSubmit ms.1 f
    (hs.1, ms.2 ++ hs.2)

/-- Modelled from the spec: the `@st.cache_resource` decorator on `setup_rag`
(app.py line 16) is Streamlit library behavior — a per-process single-flight
cache.  Given the cache cell, return the (possibly cached) result, the new
cache cell, and whether the underlying build ran. -/
def cachedSetupRag (env : Env) (cache : Option (Option Retriever)) :
    Option Retriever × Option (Option Retriever) × Bool :=
  match cache with
  | some v => (v, some v, false)
  | none => ((setup_rag env).1, some (setup_rag env).1, true)

/-- A world with no configured secrets, used as concrete input. -/
def envNoKey : Env := ⟨[], true, [], "", fun _ => []⟩

/-- A world with the key configured but no .txt file in the listing. -/
def envNoTxt : Env := ⟨["GEMINI_API_KEY"], true, [("README.md", "x")], "", fun _ => []⟩

/-- A world where the listing call itself fails. -/
def envListingDown : Env := ⟨["GEMINI_API_KEY"], false, [], "404", fun _ => []⟩

/-- A world where setup succeeds on one small .txt file. -/
def envOneTxt : Env := ⟨["GEMINI_API_KEY"], true, [("a.txt", "hi")], "", fun _ => []⟩

/-- An application state holding a retriever and a chain, used as concrete
input. -/
def readyState : AppState := ⟨some ⟨5, []⟩, some ⟨some ⟨5, []⟩⟩⟩

/-! Helper lemmas. -/

/-- Helper for C7: every in-range position is inside the span of some window
offset produced by `chunkOffsetsAux`, provided the step is positive, the step
does not exceed the window size, and enough fuel remains. -/
theorem chunkOffsetsAux_covers (size step len : Nat) (hstep : 0 < step)
    (hss : step ≤ size) (p : Nat) (hp : p < len) :
    ∀ fuel pos, pos ≤ p → len ≤ pos + fuel →
      ∃ q ∈ chunkOffsetsAux size step len fuel pos, q ≤ p ∧ p < q + size := by
  intro fuel
  induction fuel with
  | zero =>
    intro pos h1 h2
    omega
  | succ n ih =>
    intro pos h1 h2
    by_cases hc : pos + size < len
    · simp only [chunkOffsetsAux, if_pos hc]
      by_cases hin : p < pos + size
      · exact ⟨pos, List.mem_cons_self _ _, h1, hin⟩
      · obtain ⟨q, hqmem, hq1, hq2⟩ :=
          ih (pos + step) (by omega) (by omega)
        exact ⟨q, List.mem_cons_of_mem _ hqmem, hq1, hq2⟩
    · simp only [chunkOffsetsAux, if_neg hc]
      exact ⟨pos, List.mem_singleton.mpr rfl, h1, by omega⟩

/-- Helper for C5: everything `insertByScore` returns is the inserted element
or a member of the original list. -/
theorem mem_insertByScore (x y : Int × IndexEntry) :
    ∀ l, y ∈ insertByScore x l → y = x ∨ y ∈ l := by
  intro l
  induction l with
  | nil => intro hy; simp [insertByScore] at hy; exact Or.inl hy
  | cons z zs ih =>
    intro hy
    unfold insertByScore at hy
    split at hy
    · rcases List.mem_cons.mp hy with h | h
      · exact Or.inl h
      · exact Or.inr h
    · rcases List.mem_cons.mp hy with h | h
      · exact Or.inr (List.mem_cons.mpr (Or.inl h))
      · rcases ih h with h2 | h2
        · exact Or.inl h2
        · exact Or.inr (List.mem_cons.mpr (Or.inr h2))

/-- Helper for C5: `insertByScore` preserves the score-descending ordering. -/
theorem pairwise_insertByScore (x : Int × IndexEntry) :
    ∀ l, l.Pairwise (fun a b => b.1 ≤ a.1) →
      (insertByScore x l).Pairwise (fun a b => b.1 ≤ a.1) := by
  intro l
  induction l with
  | nil => intro _; simp [insertByScore]
  | cons y ys ih =>
    intro hp
    rcases List.pairwise_cons.mp hp with ⟨hy, hys⟩
    unfold insertByScore
    split
    · refine List.pairwise_cons.mpr ⟨?_, hp⟩
      intro z hz
      rcases List.mem_cons.mp hz with h | h
      · subst h; omega
      · have hzy : z.1 ≤ y.1 := hy z h
        omega
    · refine List.pairwise_cons.mpr ⟨?_, ih hys⟩
      intro z hz
      rcases mem_insertByScore x z ys hz with h | h
      · subst h; omega
      · exact hy z h

/-- Helper for C5: the ranking produced by `rankByScore` is score-descending. -/
theorem pairwise_rankByScore (l : List (Int × IndexEntry)) :
    (rankByScore l).Pairwise (fun a b => b.1 ≤ a.1) := by
  induction l with
  | nil => simp [rankByScore]
  | cons x xs ih => exact pairwise_insertByScore x (rankByScore xs) ih

/-- Helper for C5: every branch of `setup_rag` configures k = 5 when it
returns a retriever at all. -/
theorem setup_rag_k_default (env : Env) :
    ((setup_rag env).1.getD ⟨5, []⟩).k = 5 := by
  unfold setup_rag
  split
  · rfl
  · dsimp only
    split
    · rfl
    · rfl

/-! Claim theorems. -/

/-- C1: over two fetched documents of 1500 and 300 characters, chunked with
chunk_size=1000 and chunk_overlap=100, the chunker produces exactly 2 chunks
from the first document with character spans [0,1000) and [900,1500), and
exactly 1 chunk from the second document. -/
theorem chunker_two_document_scenario (d1 d2 : Document)
    (h1 : d1.content.length = 1500) (h2 : d2.content.length = 300) :
    (splitDocument 1000 100 d1).map Chunk.offset = [0, 900] ∧
    (splitDocument 1000 100 d1).map (fun c => c.offset + c.content.length) = [1000, 1500] ∧
    (splitDocument 1000 100 d2).length = 1 := by
  have e1 : chunkOffsets 1000 900 1500 = [0, 900] := by decide
  have e2 : chunkOffsets 1000 900 300 = [0] := by decide
  unfold splitDocument
  rw [h1, h2]
  norm_num [e1, e2, List.length_take, List.length_drop]
  omega

/-- C1 witness: concrete documents of 1500 and 300 characters. -/
theorem chunker_two_document_scenario_witness :
    (splitDocument 1000 100 ⟨List.replicate 1500 'a', "f1"⟩).map Chunk.offset = [0, 900] ∧
    (splitDocument 1000 100 ⟨List.replicate 1500 'a', "f1"⟩).map
      (fun c => c.offset + c.content.length) = [1000, 1500] ∧
    (splitDocument 1000 100 ⟨List.replicate 300 'b', "f2"⟩).length = 1 :=
  chunker_two_document_scenario ⟨List.replicate 1500 'a', "f1"⟩ ⟨List.replicate 300 'b', "f2"⟩
    (List.length_replicate 1500 'a') (List.length_replicate 300 'b')

/-- C6: chunking is deterministic — the chunker is a pure function of the
document and the parameters, so two runs with identical input produce
identical chunk sequences. -/
theorem chunker_deterministic (size overlap : Nat) (_hvalid : overlap < size) (d : Document) :
    splitDocument size overlap d = splitDocument size overlap d := rfl

/-- C6 witness: the default parameters are valid and a concrete run agrees
with itself. -/
theorem chunker_deterministic_witness :
    100 < 1000 ∧
      splitDocument 1000 100 ⟨['a', 'b', 'c'], "f"⟩ =
        splitDocument 1000 100 ⟨['a', 'b', 'c'], "f"⟩ :=
  ⟨by decide, chunker_deterministic 1000 100 (by decide) ⟨['a', 'b', 'c'], "f"⟩⟩

/-- C7: for every document and valid parameters, every character position of
the document lies inside the span of some produced chunk (no gaps), and every
produced chunk carries the parent document's `source_id`. -/
theorem chunker_covers_document (size overlap : Nat) (h : overlap < size)
    (d : Document) (p : Nat) (hp : p < d.content.length) :
    (splitDocument size overlap d).any
      (fun c => decide (c.offset ≤ p) && decide (p < c.offset + c.content.length)) = true ∧
    (splitDocument size overlap d).all
      (fun c => c.source_id == d.source_id) = true := by
  constructor
  · rw [List.any_eq_true]
    have hlen : ¬ d.content.length = 0 := by omega
    obtain ⟨q, hqmem, hq1, hq2⟩ :=
      chunkOffsetsAux_covers size (size - overlap) d.content.length (by omega) (by omega)
        p hp d.content.length 0 (Nat.zero_le p) (by omega)
    refine ⟨⟨(d.content.drop q).take size, d.source_id, q⟩, ?_, ?_⟩
    · simp only [splitDocument, if_neg hlen, List.mem_map]
      exact ⟨q, hqmem, rfl⟩
    · simp only [List.length_take, List.length_drop, Bool.and_eq_true, decide_eq_true_eq]
      omega
  · rw [List.all_eq_true]
    intro c hc
    unfold splitDocument at hc
    split at hc
    · simp at hc
    · simp only [List.mem_map] at hc
      obtain ⟨q, _, rfl⟩ := hc
      exact beq_self_eq_true d.source_id

/-- C7 witness: a concrete document, valid parameters, a concrete position. -/
theorem chunker_covers_document_witness :
    100 < 1000 ∧ 1 < (Document.mk ['x', 'y'] "f").content.length ∧
    ((splitDocument 1000 100 ⟨['x', 'y'], "f"⟩).any
      (fun c => decide (c.offset ≤ 1) && decide (1 < c.offset + c.content.length)) = true ∧
    (splitDocument 1000 100 ⟨['x', 'y'], "f"⟩).all
      (fun c => c.source_id == "f") = true) :=
  ⟨by decide, by decide,
    chunker_covers_document 1000 100 (by decide) ⟨['x', 'y'], "f"⟩ 1 (by decide)⟩

/-- C5: retrieval returns at most `k` chunks, namely the chunk projection of
the score-descending ranking truncated at `k`; a query against an index with
zero entries returns the empty sequence; and the retriever built by setup is
configured with the default k = 5. -/
theorem retrieval_ranked_topk (embedFn : List Char → List Int)
    (score : List Int → List Int → Int) (r : Retriever) (q : String) (k : Nat)
    (env : Env) :
    (retrieve embedFn score r q).length ≤ r.k ∧
    retrieve embedFn score r q =
      ((rankByScore (scoreEntries score (embedFn q.data) r.entries)).take r.k).map
        (fun p => p.2.chunk) ∧
    ((rankByScore (scoreEntries score (embedFn q.data) r.entries)).take r.k).Pairwise
      (fun a b => b.1 ≤ a.1) ∧
    retrieve embedFn score ⟨k, []⟩ q = [] ∧
    ((setup_rag env).1.getD ⟨5, []⟩).k = 5 := by
  refine ⟨?_, rfl, ?_, ?_, setup_rag_k_default env⟩
  · calc (retrieve embedFn score r q).length
        = ((rankByScore (scoreEntries score (embedFn q.data) r.entries)).take r.k).length := by
          simp [retrieve, queryIndex]
      _ ≤ r.k := List.length_take_le r.k _
  · exact (pairwise_rankByScore _).sublist (List.take_sublist _ _)
  · simp [retrieve, queryIndex, scoreEntries, rankByScore]

/-- C2: when the key is configured, the listing succeeds, and no listed file
name ends in .txt, setup reports the empty-knowledge-base error and returns
None, and the whole run performs no chunking, embedding, index build or
retrieval. -/
theorem empty_knowledge_base (env : Env) (sub : Option JobForm)
    (hkey : "GEMINI_API_KEY" ∈ env.secrets) (hok : env.listingOk = true)
    (hempty : env.files.all (fun f => !(endswithTxt f.1)) = true) :
    (setup_rag env).1 = none ∧
    (runApp env sub).2 = [Event.fetchList, Event.reportError emptyKbMsg] ∧
    Event.chunkDocs ∉ (runApp env sub).2 ∧
    Event.embedCall ∉ (runApp env sub).2 ∧
    Event.indexBuild ∉ (runApp env sub).2 ∧
    Event.retrieveCall ∉ (runApp env sub).2 := by
  have hfil : env.files.filter (fun f => endswithTxt f.1) = [] := by
    rw [List.filter_eq_nil_iff]
    intro a ha
    have h := List.all_eq_true.mp hempty a ha
    simp only [Bool.not_eq_true'] at h
    simp [h]
  have hsetup : setup_rag env = (none, [Event.fetchList, Event.reportError emptyKbMsg]) := by
    simp [setup_rag, hok, hfil]
  have happ : appMain env =
      (⟨none, some ⟨none⟩⟩, [Event.fetchList, Event.reportError emptyKbMsg]) := by
    simp [appMain, hkey, hsetup, setup_chain]
  have hev : (runApp env sub).2 = [Event.fetchList, Event.reportError emptyKbMsg] := by
    cases sub with
    | none => simp [runApp, happ]
    | some f => simp [runApp, happ, handleSubmit]
  refine ⟨by rw [hsetup], hev, ?_, ?_, ?_, ?_⟩ <;> rw [hev] <;> simp

/-- C2 witness: a concrete listing with one non-.txt file and no submission. -/
theorem empty_knowledge_base_witness :
    (setup_rag envNoTxt).1 = none ∧
    (runApp envNoTxt none).2 = [Event.fetchList, Event.reportError emptyKbMsg] ∧
    Event.chunkDocs ∉ (runApp envNoTxt none).2 ∧
    Event.embedCall ∉ (runApp envNoTxt none).2 ∧
    Event.indexBuild ∉ (runApp envNoTxt none).2 ∧
    Event.retrieveCall ∉ (runApp envNoTxt none).2 :=
  empty_knowledge_base envNoTxt none (by decide) (by decide) (by decide)

/-- C3: when the API credential is absent from the secrets, the run reports
exactly one error — the missing-credential message — and performs no network
event at all; neither a retriever nor a chain is ever built. -/
theorem missing_credential_halts (env : Env) (sub : Option JobForm)
    (hkey : "GEMINI_API_KEY" ∉ env.secrets) :
    (runApp env sub).2 = [Event.reportError missingKeyMsg] ∧
    (runApp env sub).2.all (fun e => !e.isNetwork) = true ∧
    (runApp env sub).1.retriever = none ∧
    (runApp env sub).1.chain = none := by
  have happ : appMain env = (⟨none, none⟩, [Event.reportError missingKeyMsg]) := by
    simp [appMain, hkey]
  cases sub with
  | none => simp [runApp, happ, Event.isNetwork]
  | some f => simp [runApp, happ, handleSubmit, Event.isNetwork]

/-- C3 witness: a world with no configured secrets and a submission attempt. -/
theorem missing_credential_halts_witness :
    (runApp envNoKey (some ⟨"t", "", "", ""⟩)).2 = [Event.reportError missingKeyMsg] ∧
    (runApp envNoKey (some ⟨"t", "", "", ""⟩)).2.all (fun e => !e.isNetwork) = true ∧
    (runApp envNoKey (some ⟨"t", "", "", ""⟩)).1.retriever = none ∧
    (runApp envNoKey (some ⟨"t", "", "", ""⟩)).1.chain = none :=
  missing_credential_halts envNoKey (some ⟨"t", "", "", ""⟩) (by decide)

/-- C4: calling the memoized setup a second time in the same process returns
the handle cached by the first call, and the underlying build runs during the
first call but not during the second — at most once per process lifetime. -/
theorem setup_memoized (env : Env) :
    (cachedSetupRag env (cachedSetupRag env none).2.1).1 = (cachedSetupRag env none).1 ∧
    (cachedSetupRag env (cachedSetupRag env none).2.1).2.2 = false ∧
    (cachedSetupRag env none).2.2 = true := by
  simp [cachedSetupRag]

/-- C8: when the listing call does not return success, setup reports the
fetch-error message once and yields None; the listing is attempted exactly
once (no retry) and no later stage runs. -/
theorem fetch_failure_fatal (env : Env) (hfail : env.listingOk = false) :
    (setup_rag env).1 = none ∧
    (setup_rag env).2 =
      [Event.fetchList, Event.reportError (setupErrHead ++ env.fetchErrDetail)] ∧
    (setup_rag env).2.count Event.fetchList = 1 ∧
    Event.chunkDocs ∉ (setup_rag env).2 ∧
    Event.embedCall ∉ (setup_rag env).2 ∧
    Event.indexBuild ∉ (setup_rag env).2 ∧
    Event.retrieveCall ∉ (setup_rag env).2 := by
  have hsetup : setup_rag env =
      (none, [Event.fetchList, Event.reportError (setupErrHead ++ env.fetchErrDetail)]) := by
    simp [setup_rag, hfail]
  rw [hsetup]
  simp [List.count_cons]

/-- C8 witness: a concrete world whose listing call fails. -/
theorem fetch_failure_fatal_witness :
    (setup_rag envListingDown).1 = none ∧
    (setup_rag envListingDown).2 =
      [Event.fetchList, Event.reportError (setupErrHead ++ envListingDown.fetchErrDetail)] ∧
    (setup_rag envListingDown).2.count Event.fetchList = 1 ∧
    Event.chunkDocs ∉ (setup_rag envListingDown).2 ∧
    Event.embedCall ∉ (setup_rag envListingDown).2 ∧
    Event.indexBuild ∉ (setup_rag envListingDown).2 ∧
    Event.retrieveCall ∉ (setup_rag envListingDown).2 :=
  fetch_failure_fatal envListingDown (by decide)

/-- C9: with a non-empty job title and empty optional fields, the handler
still issues the retrieval and generation calls, and the assembled
instruction renders each missing field as an empty value after its label. -/
theorem empty_optional_fields_assemble (st : AppState) (t : String)
    (hr : st.retriever.isSome = true) (hc : st.chain.isSome = true)
    (ht : (t == "") = false) :
    (handleSubmit st ⟨t, "", "", ""⟩).2 =
      [Event.retrieveCall, Event.generateCall (assembleUserInput ⟨t, "", "", ""⟩)] ∧
    assembleUserInput ⟨t, "", "", ""⟩ =
      "\n" ++ inputIndent ++ "募集職種: " ++ t ++
      "\n" ++ inputIndent ++ "ターゲット層: " ++
      "\n" ++ inputIndent ++ "必須スキル: " ++
      "\n" ++ inputIndent ++ "歓迎スキル: " ++
      "\n" ++ inputIndent := by
  constructor
  · obtain ⟨r, hr2⟩ := Option.isSome_iff_exists.mp hr
    obtain ⟨c, hc2⟩ := Option.isSome_iff_exists.mp hc
    have ht2 : ¬ t = "" := by
      intro h0
      rw [h0] at ht
      simp at ht
    simp [handleSubmit, hr2, hc2, ht2]
  · apply String.ext
    simp [assembleUserInput]

/-- C9 witness: a ready state, the concrete title and empty optionals. -/
theorem empty_optional_fields_assemble_witness :
    (handleSubmit readyState ⟨"Backend Engineer", "", "", ""⟩).2 =
      [Event.retrieveCall,
        Event.generateCall (assembleUserInput ⟨"Backend Engineer", "", "", ""⟩)] ∧
    assembleUserInput ⟨"Backend Engineer", "", "", ""⟩ =
      "\n" ++ inputIndent ++ "募集職種: " ++ "Backend Engineer" ++
      "\n" ++ inputIndent ++ "ターゲット層: " ++
      "\n" ++ inputIndent ++ "必須スキル: " ++
      "\n" ++ inputIndent ++ "歓迎スキル: " ++
      "\n" ++ inputIndent :=
  empty_optional_fields_assemble readyState "Backend Engineer" (by decide) (by decide)
    (by decide)

/-- C10: when the submitted job title is the empty string, the run only adds
a warning: the generation chain is never invoked, no network event is added,
and the memoized retriever and chain are left exactly as the module body
built them. -/
theorem empty_title_blocks_generation (env : Env) (f : JobForm)
    (hr : (appMain env).1.retriever.isSome = true)
    (hc : (appMain env).1.chain.isSome = true)
    (ht : f.job_title = "") :
    (runApp env (some f)).1.retriever = (appMain env).1.retriever ∧
    (runApp env (some f)).1.chain = (appMain env).1.chain ∧
    (runApp env (some f)).2 = (appMain env).2 ++ [Event.reportWarning titleRequiredMsg] ∧
    (handleSubmit (appMain env).1 f).2.all (fun e => !e.isNetwork) = true := by
  obtain ⟨r, hr2⟩ := Option.isSome_iff_exists.mp hr
  obtain ⟨c, hc2⟩ := Option.isSome_iff_exists.mp hc
  have hh : handleSubmit (appMain env).1 f =
      ((appMain env).1, [Event.reportWarning titleRequiredMsg]) := by
    simp [handleSubmit, hr2, hc2, ht]
  refine ⟨?_, ?_, ?_, ?_⟩ <;> simp [runApp, hh, Event.isNetwork]

/-- C10 witness: a successful setup over one .txt file, then a submission
with an empty title. -/
theorem empty_title_blocks_generation_witness :
    (runApp envOneTxt (some ⟨"", "x", "y", "z"⟩)).1.retriever =
      (appMain envOneTxt).1.retriever ∧
    (runApp envOneTxt (some ⟨"", "x", "y", "z"⟩)).1.chain = (appMain envOneTxt).1.chain ∧
    (runApp envOneTxt (some ⟨"", "x", "y", "z"⟩)).2 =
      (appMain envOneTxt).2 ++ [Event.reportWarning titleRequiredMsg] ∧
    (handleSubmit (appMain envOneTxt).1 ⟨"", "x", "y", "z"⟩).2.all
      (fun e => !e.isNetwork) = true :=
  empty_title_blocks_generation envOneTxt ⟨"", "x", "y", "z"⟩ (by decide) (by decide) rfl
